import Mathlib

/-!
Shallow embedding of the PipeEdge runtime control plane:
`src/utils/quant.py` (adaptive bitwidth performance controller),
`src/monitoring.py` (monitoring registry, iteration context tracker),
and `src/runtime.py` (pipeline coordinator command handling).

Python floats are modelled as exact rationals (`ℚ`), Python ints as `ℤ`/`ℕ`,
and fallible code as `Except`.  External collaborators that are not part of
the repository slice under verification (the energy probe, the integral
feedback controller, the heartbeats-based `MonitorContext`) are modelled from
the specification where noted.
-/

namespace PipeEdge

namespace Quant

/-- Default relative tolerance of Python's `math.isclose` (`rel_tol=1e-9`);
`src/utils/quant.py` calls `math.isclose` with default tolerances. -/
def relTol : ℚ := 1 / 10 ^ 9

/-- Python's `math.isclose(a, b)` with default `rel_tol=1e-9`, `abs_tol=0.0`:
`abs(a-b) <= max(rel_tol * max(abs(a), abs(b)), abs_tol)`. -/
def isclose (a b : ℚ) : Bool := decide (|a - b| ≤ max (relTol * max |a| |b|) 0)

/-- Python's builtin `round` on an exact rational: round half to even. -/
def pyRound (q : ℚ) : ℤ :=
  if q - (⌊q⌋ : ℚ) < 1 / 2 then ⌊q⌋
  else if 1 / 2 < q - (⌊q⌋ : ℚ) then ⌊q⌋ + 1
  else if ⌊q⌋ % 2 = 0 then ⌊q⌋ else ⌊q⌋ + 1

/-- `list(bitwidths)` followed by `sort(reverse=True)`: stable descending sort. -/
def descSort (l : List ℤ) : List ℤ := l.mergeSort (fun a b => decide (b ≤ a))

/-- State of `AdaptiveBitwidthPerformanceController` after `__init__`
(`src/utils/quant.py`, lines 30-38).  The fields `perfConstraint`, `u0`,
`uMax` are the arguments handed to the parent `AdaptiveIntegralXupController`;
the parent class lives in `src/utils/controller.py`, which is not part of the
verified slice, and is modelled from the spec as simply retaining its seed
`(constraint, u0, u_max)`. -/
structure ABPCState where
  perfConstraint : ℚ
  bitwidths : List ℤ
  speedups : List ℚ
  u0 : ℚ
  uMax : ℚ
deriving Repr, DecidableEq

/-- Embedding of `AdaptiveBitwidthPerformanceController.__init__`
(`src/utils/quant.py`, lines 30-38).  Failure modes are exactly the Python
exceptions raised by the constructor body: an empty list raises `IndexError`
at `u_0 = self._bitwidths[0] / bitwidth_start` (the `self._speedups` list
comprehension succeeds vacuously on an empty list), a zero bitwidth raises
`ZeroDivisionError` inside the speedups comprehension, and a zero
`bitwidth_start` raises `ZeroDivisionError` at `u_0`.  No other validation is
performed by the source. -/
def initAux (perfConstraint : ℚ) (sorted : List ℤ) (bitwidthStart : ℤ) :
    Except String ABPCState :=
  match sorted with
  | [] => .error "IndexError: list index out of range"
  | b0 :: rest =>
    if (b0 :: rest).contains 0 then
      .error "ZeroDivisionError: float division by zero"
    else if bitwidthStart == 0 then
      .error "ZeroDivisionError: float division by zero"
    else
      let speedups := (b0 :: rest).map (fun b : ℤ => (b0 : ℚ) / (b : ℚ))
      .ok { perfConstraint := perfConstraint
            bitwidths := b0 :: rest
            speedups := speedups
            u0 := (b0 : ℚ) / (bitwidthStart : ℚ)
            uMax := speedups.getLastD 0 }

def init (perfConstraint : ℚ) (bitwidths : List ℤ) (bitwidthStart : ℤ) :
    Except String ABPCState :=
  initAux perfConstraint (descSort bitwidths) bitwidthStart

/-- Embedding of `AdaptiveBitwidthPerformanceController.__call__`
(`src/utils/quant.py`, lines 40-73).  The first step of the source,
`xup_targ = super().__call__(perf_measured)`, invokes the external integral
feedback controller (`src/utils/controller.py`, not part of the verified
slice); its output is therefore taken here as the argument `xupTarg`, per the
spec's black-box contract for the feedback controller. -/
def evaluate (st : ABPCState) (xupTarg : ℚ) (windowLen : ℤ) : ℤ × ℤ × ℤ :=
  let idxSlow := (st.speedups.filter (fun s => decide (s ≤ xupTarg))).length - 1
  let idxFast := min (idxSlow + 1) (st.speedups.length - 1)
  let xupSlow := st.speedups.getD idxSlow 0
  let xupFast := st.speedups.getD idxFast 0
  let x : ℚ :=
    if isclose xupSlow xupFast then 0
    else (xupSlow * (xupFast - xupTarg)) / (xupTarg * (xupFast - xupSlow))
  let numIter := pyRound ((windowLen : ℚ) * x)
  (st.bitwidths.getD idxSlow 0, st.bitwidths.getD idxFast 0, numIter)

/-- Controller state produced by `init 1 [4, 4] 4`: a duplicate bitwidth list
that the constructor accepts. -/
def dupSt : ABPCState :=
  { perfConstraint := 1, bitwidths := [4, 4], speedups := [1, 1], u0 := 1, uMax := 1 }

/-- Controller state produced by `init 1 [8, 4, 2, 1] 8`. -/
def exSt : ABPCState :=
  { perfConstraint := 1, bitwidths := [8, 4, 2, 1], speedups := [1, 2, 4, 8],
    u0 := 1, uMax := 8 }

end Quant

namespace Monitoring

/-! Embedding of `src/monitoring.py`.  The module's globals `_monitor_ctx`,
`_thr_ctx`, `_locks`, `_work_types`, `_acc_types` become the fields of
`GState`; Python dicts become insertion-ordered association lists.  The
heartbeats-based `MonitorContext` / `MonitorIterationContext` classes are
imported from `pipeedge.monitoring`, which is not under the verified slice's
`src/`; their state is modelled from the spec where noted.  Wall-clock and
energy readings are real-time effects and are outside the model; the work
and accuracy accumulators and the iteration tag are modelled exactly. -/

abbrev Key := String

/-- Module constant `_WINDOW_SIZE = 10` (`src/monitoring.py`, line 23).
`_iteration` uses this constant directly in its window-log check. -/
def WINDOW_SIZE : ℕ := 10

/-- `get_window_size()` (`src/monitoring.py`, lines 98-100): the value of the
`WINDOW_SIZE` environment variable when set, else the default `10`.  The
environment is modelled as the optional parsed integer value. -/
def get_window_size (env : Option ℕ) : ℕ := env.getD WINDOW_SIZE

/-- Replace the value at a key in an insertion-ordered association list, or
append the binding (Python dict assignment `d[k] = v`). -/
def updAssoc {α β : Type} [BEq α] : List (α × β) → α → β → List (α × β)
  | [], k, v => [(k, v)]
  | (a, b) :: m, k, v => if a == k then (k, v) :: m else (a, b) :: updAssoc m k v

/-- Remove the binding at a key (Python `del d[k]` / `d.pop(k)` effect). -/
def delAssoc {α β : Type} [BEq α] : List (α × β) → α → List (α × β)
  | [], _ => []
  | (a, b) :: m, k => if a == k then m else (a, b) :: delAssoc m k

/-- Modelled from the spec: the per-key metric state held by the external
`MonitorContext` (`pipeedge.monitoring`, not under `src/`).  `calls` counts
`iteration` calls for the key; the heartbeat tag of the most recent call is
`calls - 1`, so the tag is `0` exactly for the state-establishing first call.
Instant holds the last sample; window and global accumulate work/accuracy
and heartbeat counts, the window resetting every `window_size` completed
iterations. -/
structure MetricState where
  calls : ℕ
  instantWork : ℚ
  instantAcc : ℚ
  windowWork : ℚ
  windowAcc : ℚ
  windowBeats : ℕ
  globalWork : ℚ
  globalAcc : ℚ
  globalBeats : ℕ
deriving Repr, DecidableEq

def MetricState.fresh : MetricState := ⟨0, 0, 0, 0, 0, 0, 0, 0, 0⟩

/-- Modelled from the spec: one `MonitorContext.iteration` update of a key's
metric state — set the instant sample, accumulate window and global scopes,
and roll (reset) the window when `(tag + 1) % window_size == 0` for the tag
assigned to this call. -/
def MetricState.heartbeat (ms : MetricState) (work acc : ℚ) (windowSize : ℕ) :
    MetricState :=
  let tag := ms.calls
  let roll := decide ((tag + 1) % windowSize = 0)
  { calls := ms.calls + 1
    instantWork := work
    instantAcc := acc
    windowWork := if roll then 0 else ms.windowWork + work
    windowAcc := if roll then 0 else ms.windowAcc + acc
    windowBeats := if roll then 0 else ms.windowBeats + 1
    globalWork := ms.globalWork + work
    globalAcc := ms.globalAcc + acc
    globalBeats := ms.globalBeats + 1 }

/-- Modelled from the spec: the external `MonitorContext` (key-indexed metric
states, the configured window size, and whether an energy probe is
attached). -/
structure MonitorCtx where
  windowSize : ℕ
  hasEnergy : Bool
  metrics : List (Key × MetricState)
deriving Repr, DecidableEq

/-- Modelled from the spec: `MonitorContext.iteration(key, work, accuracy)`
updates the key's metric state; an unknown key is a lookup error. -/
def MonitorCtx.iteration (ctx : MonitorCtx) (key : Key) (work acc : ℚ) :
    Except String MonitorCtx :=
  match ctx.metrics.lookup key with
  | none => .error ("KeyError: " ++ key)
  | some ms =>
      .ok { ctx with
              metrics := updAssoc ctx.metrics key (ms.heartbeat work acc ctx.windowSize) }

/-- Modelled from the spec: `MonitorContext.get_tag(key)` — the heartbeat tag
of the key's most recent completed iteration (`0` for the first call). -/
def MonitorCtx.getTag (ctx : MonitorCtx) (key : Key) : ℕ :=
  ((ctx.metrics.lookup key).getD MetricState.fresh).calls - 1

/-- Log records emitted by the registry (field identity only; the field
values are the accumulator contents at the time of the call). -/
inductive LogEvent
  | instant (key : Key)
  | window (key : Key)
  | globalScope (key : Key)
deriving Repr, DecidableEq

/-- The module-level mutable state of `src/monitoring.py`: `_monitor_ctx`,
`_thr_ctx` (thread ident → key → open iteration context, modelled by its key
set since `MonitorIterationContext` holds only wall-clock state), `_locks`
(key set), `_work_types`, `_acc_types`. -/
structure GState where
  monitorCtx : Option MonitorCtx
  thrCtx : List (ℕ × List Key)
  locks : List Key
  workTypes : List (Key × String)
  accTypes : List (Key × String)
deriving Repr, DecidableEq

/-- `_iter_ctx_push` (`src/monitoring.py`, lines 166-176): register an open
span for `(ident, key)`; raises `KeyError` if one is already open. -/
def iterCtxPush (tc : List (ℕ × List Key)) (ident : ℕ) (key : Key) :
    Except String (List (ℕ × List Key)) :=
  if ((tc.lookup ident).getD []).contains key then
    .error ("Thread iteration context already exists for key: " ++ key)
  else
    .ok (updAssoc tc ident (((tc.lookup ident).getD []) ++ [key]))

/-- `_iter_ctx_pop` (`src/monitoring.py`, lines 178-185): close the open span
for `(ident, key)`; `KeyError` when the thread has no map or no such key; the
thread's map is pruned when it becomes empty. -/
def iterCtxPop (tc : List (ℕ × List Key)) (ident : ℕ) (key : Key) :
    Except String (List (ℕ × List Key)) :=
  match tc.lookup ident with
  | none => .error "KeyError: thread ident"
  | some keymap =>
      if keymap.contains key then
        .ok (if (keymap.erase key).isEmpty then delAssoc tc ident
             else updAssoc tc ident (keymap.erase key))
      else
        .error ("KeyError: " ++ key)

/-- `_add_key` (`src/monitoring.py`, lines 153-160): no-op when the registry
was never initialized; otherwise registers a fresh metric state, a per-key
lock and the label strings. -/
def add_key (g : GState) (key : Key) (workType accType : String) : GState :=
  match g.monitorCtx with
  | none => g
  | some ctx =>
      { g with
          monitorCtx := some { ctx with metrics := updAssoc ctx.metrics key MetricState.fresh }
          locks := if g.locks.contains key then g.locks else g.locks ++ [key]
          workTypes := updAssoc g.workTypes key workType
          accTypes := updAssoc g.accTypes key accType }

/-- `_iteration_start` (`src/monitoring.py`, lines 187-196): no-op when the
registry was never initialized; the per-key lock lookup `_locks[key]` raises
`KeyError` for an unregistered key; otherwise pushes an open span (collision
errors propagate).  `MonitorContext.iteration_start` itself only stamps the
span's wall-clock state, which is outside the model. -/
def iteration_start (g : GState) (ident : ℕ) (key : Key) : Except String GState :=
  match g.monitorCtx with
  | none => .ok g
  | some _ =>
      if g.locks.contains key then
        match iterCtxPush g.thrCtx ident key with
        | .error e => .error e
        | .ok tc => .ok { g with thrCtx := tc }
      else
        .error ("KeyError: " ++ key)

/-- The logging tail of `_iteration` (`src/monitoring.py`, lines 212-219):
with `_PRINT_FIELDS_INSTANT` and `_PRINT_FIELDS_WINDOW` both `True`, instant
fields are logged when `tag > 0` and window fields additionally when
`tag > 0 and (tag + 1) % _WINDOW_SIZE == 0` — note the module constant
`_WINDOW_SIZE`, not `get_window_size()`. -/
def iterationLogs (tag : ℕ) (key : Key) : List LogEvent :=
  if 0 < tag then
    LogEvent.instant key ::
      (if 0 < tag ∧ (tag + 1) % WINDOW_SIZE = 0 then [LogEvent.window key] else [])
  else []

/-- The part of `_iteration` after the span pop: update the metric state via
the context, read the tag back, and emit log events. -/
def iterationApply (g : GState) (ctx : MonitorCtx) (tc : List (ℕ × List Key))
    (key : Key) (work acc : ℚ) : Except String (GState × List LogEvent) :=
  match ctx.iteration key work acc with
  | .error e => .error e
  | .ok ctx' =>
      .ok ({ g with monitorCtx := some ctx', thrCtx := tc },
           iterationLogs (ctx'.getTag key) key)

/-- `_iteration` (`src/monitoring.py`, lines 198-219): no-op when the registry
was never initialized; `_locks[key]` raises `KeyError` for an unregistered
key; popping the span raises a usage `KeyError` when no span is open and
`safe=True`, and proceeds without a span when `safe=False`; then the metric
state is updated and instant/window fields are logged per `iterationLogs`. -/
def iteration (g : GState) (ident : ℕ) (key : Key) (work acc : ℚ) (safe : Bool) :
    Except String (GState × List LogEvent) :=
  match g.monitorCtx with
  | none => .ok (g, [])
  | some ctx =>
      if g.locks.contains key then
        match iterCtxPop g.thrCtx ident key with
        | .ok tc => iterationApply g ctx tc key work acc
        | .error _ =>
            if safe then .error ("No thread iteration context for key: " ++ key)
            else iterationApply g ctx g.thrCtx key work acc
      else
        .error ("KeyError: " ++ key)

/-- `_finish` (`src/monitoring.py`, lines 134-147): no-op when the registry
was never initialized; otherwise logs global fields for every key
(`_PRINT_FIELDS_GLOBAL` is `True`), releases the context and clears all
module state. -/
def finish (g : GState) : GState × List LogEvent :=
  match g.monitorCtx with
  | none => (g, [])
  | some ctx =>
      (⟨none, [], [], [], []⟩, ctx.metrics.map (fun p => LogEvent.globalScope p.1))

/-- Outcomes of the external energy-probe interactions during `_init`:
whether constructing `MonitorContext` with the default energy library raises
`FileNotFoundError`, and the `OSError` errno (if any) of the first and second
`open()` calls.  The probe is an external collaborator with a documented
"not found" vs "open failed" error distinction. -/
structure InitEnv where
  energyLibMissing : Bool
  openErr1 : Option ℤ
  openErr2 : Option ℤ
deriving Repr, DecidableEq

/-- `_init` (`src/monitoring.py`, lines 102-128): create the context with an
energy probe; on `FileNotFoundError` recreate it with `energy_lib=None` and
continue; `open()` it; on `OSError` recreate without an energy probe and
`open()` again, this second call unguarded so its failure propagates; on
success register the key's lock and labels. -/
def init (g : GState) (env : InitEnv) (windowSize : ℕ) (key : Key)
    (workType accType : String) : Except ℤ GState :=
  let mkCtx : Bool → MonitorCtx := fun energy =>
    { windowSize := windowSize, hasEnergy := energy, metrics := [(key, MetricState.fresh)] }
  let register : MonitorCtx → GState := fun ctx =>
    { g with
        monitorCtx := some ctx
        locks := if g.locks.contains key then g.locks else g.locks ++ [key]
        workTypes := updAssoc g.workTypes key workType
        accTypes := updAssoc g.accTypes key accType }
  let ctx1 := mkCtx (!env.energyLibMissing)
  match env.openErr1 with
  | none => .ok (register ctx1)
  | some _ =>
      let ctx2 := mkCtx false
      match env.openErr2 with
      | none => .ok (register ctx2)
      | some e2 => .error e2

/-- Metric state of a key that has seen 3 completed iterations. -/
def c1Metric3 : MetricState := { MetricState.fresh with calls := 3 }

/-- Metric state of a key that has seen 9 completed iterations. -/
def c1Metric9 : MetricState := { MetricState.fresh with calls := 9 }

/-- Registry configured with window size 4 (as `WINDOW_SIZE=4` would
configure the context), key `shard` at 3 completed iterations, one open span
on thread 0. -/
def c1G4 : GState :=
  { monitorCtx := some { windowSize := 4, hasEnergy := false
                         metrics := [("shard", c1Metric3)] }
    thrCtx := [(0, ["shard"])]
    locks := ["shard"]
    workTypes := [("shard", "items")]
    accTypes := [("shard", "acc")] }

/-- Same registry as `c1G4` with key `shard` at 9 completed iterations. -/
def c1G9 : GState :=
  { monitorCtx := some { windowSize := 4, hasEnergy := false
                         metrics := [("shard", c1Metric9)] }
    thrCtx := [(0, ["shard"])]
    locks := ["shard"]
    workTypes := [("shard", "items")]
    accTypes := [("shard", "acc")] }

/-- Freshly initialized registry for key `shard`, no open spans. -/
def exG0 : GState :=
  { monitorCtx := some { windowSize := 10, hasEnergy := false
                         metrics := [("shard", MetricState.fresh)] }
    thrCtx := []
    locks := ["shard"]
    workTypes := [("shard", "items")]
    accTypes := [("shard", "acc")] }

/-- `exG0` after a successful `iteration_start` on thread 0 for `shard`. -/
def exG1 : GState := { exG0 with thrCtx := [(0, ["shard"])] }

/-- The never-initialized module state. -/
def exGNone : GState := ⟨none, [], [], [], []⟩

end Monitoring

namespace Runtime

/-- `CMD_STOP` (`src/runtime.py`, line 38). -/
def CMD_STOP : ℤ := 0

/-- `CMD_SCHED` (`src/runtime.py`, line 39). -/
def CMD_SCHED : ℤ := 1

/-- A decoded Python value as returned by `torch.Tensor.tolist()` (a nested
list of ints for the integral schedule tensors). -/
inductive PyVal
  | int (n : ℤ)
  | list (xs : List PyVal)

/-- A received tensor, modelled by the decoded value its `tolist()` yields. -/
structure Tensor where
  tolist : PyVal

/-- The module-level coordinator state touched by `handle_cmd`
(`src/runtime.py`, lines 316-317): the process-wide cancellation flag
`stop_event` and the schedule delivery queue `sched_q` (FIFO). -/
structure CoordState where
  stopEvent : Bool
  schedQ : List (List PyVal)

/-- `handle_cmd` (`src/runtime.py`, lines 318-327): `Stop` sets the
cancellation flag, `ScheduleBroadcast` enqueues the decoded payload, and any
other command kind is logged and ignored. -/
def handle_cmd (st : CoordState) (cmd : ℤ) (tensors : List Tensor) : CoordState :=
  if cmd = CMD_STOP then { st with stopEvent := true }
  else if cmd = CMD_SCHED then
    { st with schedQ := st.schedQ ++ [tensors.map Tensor.tolist] }
  else st

end Runtime

namespace Quant

lemma descSort_perm (l : List ℤ) : List.Perm (descSort l) l := l.mergeSort_perm _

lemma descSort_sorted (l : List ℤ) :
    (descSort l).Pairwise (fun a b => b ≤ a) := by
  have h := @List.sorted_mergeSort ℤ (fun a b : ℤ => decide (b ≤ a))
    (fun a b c h1 h2 => by simp only [decide_eq_true_eq] at h1 h2 ⊢; omega)
    (fun a b => by simp only [Bool.or_eq_true, decide_eq_true_eq]; omega) l
  simpa only [List.Sorted, decide_eq_true_eq] using h

lemma descSort_strict {l : List ℤ} (hnd : l.Nodup) :
    (descSort l).Pairwise (fun a b => b < a) := by
  have h1 := descSort_sorted l
  have h2 : (descSort l).Nodup := ((descSort_perm l).nodup_iff).mpr hnd
  exact (h1.and h2).imp (fun h => lt_of_le_of_ne h.1 (Ne.symm h.2))

lemma isclose_self (a : ℚ) : isclose a a = true := by
  simp only [isclose, sub_self, abs_zero, decide_eq_true_eq, le_max_iff]
  exact Or.inr le_rfl

lemma pyRound_bounds {q : ℚ} {w : ℤ} (h0 : 0 ≤ q) (hw : q ≤ (w : ℚ)) :
    0 ≤ pyRound q ∧ pyRound q ≤ w := by
  have hf0 : (0 : ℤ) ≤ ⌊q⌋ := Int.floor_nonneg.mpr h0
  have hfw : ⌊q⌋ ≤ w := by
    have := Int.floor_le_floor hw
    simpa using this
  unfold pyRound
  split
  · exact ⟨hf0, hfw⟩
  · rename_i hge
    push_neg at hge
    have hlt : ⌊q⌋ < w := by
      have hq : (⌊q⌋ : ℚ) < q := by
        have : (⌊q⌋ : ℚ) + 1 / 2 ≤ q := by linarith
        linarith
      have : (⌊q⌋ : ℚ) < (w : ℚ) := lt_of_lt_of_le hq hw
      exact_mod_cast this
    split
    · omega
    · split <;> omega

lemma pyRound_zero : pyRound 0 = 0 := by
  have h := @pyRound_bounds 0 0 le_rfl (by norm_num)
  omega

/-- In a list sorted in non-decreasing order, the elements `≤ t` form a
prefix: position `i` is below the number of elements `≤ t` iff the element at
`i` is `≤ t`. -/
lemma sorted_filter_iff {t : ℚ} {l : List ℚ} (hs : l.Pairwise (· ≤ ·)) :
    ∀ i, i < l.length →
      (i < (l.filter (fun s => decide (s ≤ t))).length ↔ l.getD i 0 ≤ t) := by
  induction l with
  | nil => intro i hi; simp at hi
  | cons a l ih =>
    obtain ⟨ha, hl⟩ := List.pairwise_cons.mp hs
    intro i hi
    by_cases hat : a ≤ t
    · rw [List.filter_cons, if_pos (by simpa using hat)]
      cases i with
      | zero => simpa using hat
      | succ j =>
        simp only [List.length_cons, List.getD_cons_succ]
        have hj : j < l.length := by simpa using hi
        have hiff := ih hl j hj
        constructor
        · intro h; exact hiff.mp (by omega)
        · intro h; have := hiff.mpr h; omega
    · have hnil : (a :: l).filter (fun s => decide (s ≤ t)) = [] := by
        apply List.filter_eq_nil_iff.mpr
        intro b hb
        simp only [decide_eq_true_eq]
        rcases List.mem_cons.mp hb with rfl | hbl
        · exact hat
        · intro hbt; exact hat (le_trans (ha b hbl) hbt)
      rw [hnil]
      simp only [List.length_nil]
      constructor
      · omega
      · intro h; exfalso
        cases i with
        | zero => exact hat (by simpa using h)
        | succ j =>
          have hj : j < l.length := by simpa using hi
          have hmem : l.getD j 0 ∈ l := by
            rw [List.getD_eq_getElem _ _ hj]; exact List.getElem_mem hj
          exact hat (le_trans (ha _ hmem) (by simpa using h))

/-- Invariants established by a successful construction from a duplicate-free
list of positive bitwidths. -/
lemma init_spec {pc : ℚ} {l : List ℤ} {s : ℤ} {st : ABPCState}
    (hnd : l.Nodup) (hpos : ∀ b ∈ l, 0 < b)
    (hinit : init pc l s = .ok st) :
    0 < st.speedups.length ∧
    st.speedups.length = st.bitwidths.length ∧
    st.bitwidths.Pairwise (fun a b => b < a) ∧
    st.speedups.Pairwise (· < ·) ∧
    st.speedups.getD 0 0 = 1 ∧
    (∀ q ∈ st.speedups, 0 < q) ∧
    st.uMax = st.speedups.getLastD 0 ∧
    ∃ m, m ∈ l ∧ (∀ b ∈ l, b ≤ m) ∧
      ∀ i, i < st.bitwidths.length →
        st.speedups.getD i 0 = (m : ℚ) / (st.bitwidths.getD i 0 : ℚ) := by
  have hperm := descSort_perm l
  have hsorted := descSort_sorted l
  have hstrict := descSort_strict hnd
  have hposd : ∀ b ∈ descSort l, 0 < b := fun b hb => hpos b (hperm.mem_iff.mp hb)
  unfold init at hinit
  cases hd : descSort l with
  | nil => rw [hd] at hinit; exact absurd hinit (by simp [initAux])
  | cons b0 rest =>
    rw [hd] at hinit hsorted hstrict hposd hperm
    have hz : (b0 :: rest).contains 0 = false := by
      by_contra hne
      have : (0 : ℤ) ∈ b0 :: rest := by
        have := Bool.not_eq_false _ |>.mp hne
        exact List.elem_iff.mp this
      exact absurd (hposd 0 this) (by omega)
    by_cases hs0 : (s == 0) = true
    · simp only [initAux, hz, hs0, Bool.false_eq_true, if_false, if_true] at hinit
      exact absurd hinit (by simp)
    · rw [Bool.not_eq_true] at hs0
      simp only [initAux, hz, hs0, Bool.false_eq_true, if_false,
        Except.ok.injEq] at hinit
      subst hinit
      have hb0pos : 0 < b0 := hposd b0 (List.mem_cons_self _ _)
      have hb0 : (b0 : ℚ) ≠ 0 := by exact_mod_cast hb0pos.ne.symm
      refine ⟨by simp, by simp, hstrict, ?_, ?_, ?_, rfl, ?_⟩
      · rw [List.pairwise_map]
        refine hstrict.imp_of_mem ?_
        intro a b hma hmb hab
        have hapos : (0 : ℚ) < (a : ℚ) := by exact_mod_cast hposd a hma
        have hbpos : (0 : ℚ) < (b : ℚ) := by exact_mod_cast hposd b hmb
        have hb0q : (0 : ℚ) < (b0 : ℚ) := by exact_mod_cast hb0pos
        have hba : (b : ℚ) < (a : ℚ) := by exact_mod_cast hab
        exact div_lt_div_of_pos_left hb0q hbpos hba
      · simp [div_self hb0]
      · intro q hq
        simp only [List.mem_map] at hq
        obtain ⟨b, hb, rfl⟩ := hq
        have : (0 : ℚ) < (b : ℚ) := by exact_mod_cast hposd b hb
        exact div_pos (by exact_mod_cast hb0pos) this
      · refine ⟨b0, hperm.subset (List.mem_cons_self _ _), ?_, ?_⟩
        · intro b hb
          have hmem : b ∈ b0 :: rest := hperm.symm.subset hb
          rcases List.mem_cons.mp hmem with rfl | htail
          · exact le_rfl
          · exact List.rel_of_pairwise_cons hsorted htail
        · intro i hi
          simp only [List.length_cons] at hi
          rw [List.getD_eq_getElem _ _ (by simpa using hi),
              List.getD_eq_getElem _ _ (by simpa using hi)]
          simp only [List.getElem_map]

unseal List.merge List.mergeSort in
lemma descSort_ex : descSort [8, 4, 2, 1] = [8, 4, 2, 1] := rfl

unseal List.merge List.mergeSort in
lemma descSort_dup : descSort [4, 4] = [4, 4] := rfl

lemma exSt_init : init 1 [8, 4, 2, 1] 8 = .ok exSt := by
  unfold init
  rw [descSort_ex]
  simp only [initAux, exSt]
  norm_num

unseal List.merge List.mergeSort in
/-- C2 counterexample: constructing the controller from the duplicate
bitwidth list `[4, 4]` does NOT fail — `__init__` performs no duplicate
check, so construction succeeds. -/
theorem claim_C2_counterexample : init 1 [4, 4] 4 = .ok dupSt := by
  unfold init
  rw [descSort_dup]
  simp only [initAux, dupSt]
  norm_num

/-- C2 (amended): constructing `AdaptiveBitwidthPerformanceController` from an
empty bitwidth list fails at construction time, for every performance
constraint and starting bitwidth (an uncaught `IndexError` raised while
computing `u_0 = self._bitwidths[0] / bitwidth_start`); lists containing
duplicates are not rejected. -/
theorem claim_C2_empty_fails (pc : ℚ) (s : ℤ) :
    init pc [] s = .error "IndexError: list index out of range" := by
  unfold init descSort
  rw [List.mergeSort_nil]
  rfl

/-- C8: after a successful construction from a non-empty duplicate-free list
of positive bitwidths, the controller's bitwidths are sorted in (strictly)
descending order, `speedups[i] = max_bitwidth / bitwidths[i]` where
`max_bitwidth` is the maximum of the supplied list, `speedups[0] = 1`, and
`speedups` is monotonically non-decreasing (sorted ascending). -/
theorem claim_C8_init_invariants {pc : ℚ} {l : List ℤ} {s : ℤ} {st : ABPCState}
    (_hne : l ≠ []) (hnd : l.Nodup) (hpos : ∀ b ∈ l, 0 < b)
    (hinit : init pc l s = .ok st) :
    st.bitwidths.Pairwise (fun a b => b < a) ∧
    st.speedups.length = st.bitwidths.length ∧
    (∃ m, m ∈ l ∧ (∀ b ∈ l, b ≤ m) ∧
       ∀ i, i < st.bitwidths.length →
         st.speedups.getD i 0 = (m : ℚ) / (st.bitwidths.getD i 0 : ℚ)) ∧
    st.speedups.getD 0 0 = 1 ∧
    st.speedups.Pairwise (· ≤ ·) := by
  obtain ⟨_h1, h2, h3, h4, h5, _h6, _h7, hmax⟩ := init_spec hnd hpos hinit
  obtain ⟨m, hm1, hm2, hm3⟩ := hmax
  exact ⟨h3, h2, ⟨m, hm1, hm2, hm3⟩, h5, h4.imp le_of_lt⟩

/-- Witness for C8 at the concrete input `init 1 [8, 4, 2, 1] 8`. -/
theorem claim_C8_init_invariants_witness :
    exSt.bitwidths.Pairwise (fun a b => b < a) ∧
    exSt.speedups.length = exSt.bitwidths.length ∧
    (∃ m, m ∈ ([8, 4, 2, 1] : List ℤ) ∧ (∀ b ∈ ([8, 4, 2, 1] : List ℤ), b ≤ m) ∧
       ∀ i, i < exSt.bitwidths.length →
         exSt.speedups.getD i 0 = (m : ℚ) / (exSt.bitwidths.getD i 0 : ℚ)) ∧
    exSt.speedups.getD 0 0 = 1 ∧
    exSt.speedups.Pairwise (· ≤ ·) :=
  claim_C8_init_invariants (by decide) (by decide) (by decide) exSt_init

/-- C3: for a controller built from a non-empty duplicate-free positive
bitwidth list and any feedback-controller output `t ≠ 0`, `evaluate` returns
the bitwidths at indices `idx_slow` and `idx_fast`, where `idx_slow` is the
largest index whose speedup is `≤ t` (0 when none qualifies),
`idx_fast = min (idx_slow + 1) (last index)`, and the iteration count is `0`
when the two candidate speedups are numerically equal (Python `math.isclose`)
and otherwise `round(window_len * x)` with
`x = xup_slow*(xup_fast - t) / (t*(xup_fast - xup_slow))`. -/
theorem claim_C3_evaluate {pc t : ℚ} {l : List ℤ} {s w : ℤ} {st : ABPCState}
    (_hne : l ≠ []) (hnd : l.Nodup) (hpos : ∀ b ∈ l, 0 < b) (_ht : t ≠ 0)
    (hinit : init pc l s = .ok st) :
    ∃ iSlow iFast : ℕ,
      iSlow < st.speedups.length ∧
      iFast = min (iSlow + 1) (st.speedups.length - 1) ∧
      ((∀ j, j < st.speedups.length → ¬ st.speedups.getD j 0 ≤ t) → iSlow = 0) ∧
      (∀ j, j < st.speedups.length → st.speedups.getD j 0 ≤ t →
        st.speedups.getD iSlow 0 ≤ t ∧ j ≤ iSlow) ∧
      evaluate st t w =
        (st.bitwidths.getD iSlow 0, st.bitwidths.getD iFast 0,
         if isclose (st.speedups.getD iSlow 0) (st.speedups.getD iFast 0) then 0
         else pyRound ((w : ℚ) *
           (st.speedups.getD iSlow 0 * (st.speedups.getD iFast 0 - t) /
            (t * (st.speedups.getD iFast 0 - st.speedups.getD iSlow 0))))) := by
  obtain ⟨hlen0, _h2, _h3, hspstrict, h0, _h6, _h7, _h8⟩ := init_spec hnd hpos hinit
  have hs : st.speedups.Pairwise (· ≤ ·) := hspstrict.imp le_of_lt
  have hcn : (st.speedups.filter (fun q => decide (q ≤ t))).length ≤
      st.speedups.length := List.length_filter_le _ _
  refine ⟨(st.speedups.filter (fun q => decide (q ≤ t))).length - 1,
    min ((st.speedups.filter (fun q => decide (q ≤ t))).length - 1 + 1)
      (st.speedups.length - 1), ?_, rfl, ?_, ?_, ?_⟩
  · omega
  · intro h
    have hc0 : (st.speedups.filter (fun q => decide (q ≤ t))).length = 0 := by
      by_contra hc0
      exact h 0 hlen0 ((sorted_filter_iff hs 0 hlen0).mp (by omega))
    omega
  · intro j hj hjt
    have hjc : j < (st.speedups.filter (fun q => decide (q ≤ t))).length :=
      (sorted_filter_iff hs j hj).mpr hjt
    refine ⟨(sorted_filter_iff hs _ (by omega)).mp (by omega), by omega⟩
  · have hev : evaluate st t w =
        (st.bitwidths.getD ((st.speedups.filter (fun q => decide (q ≤ t))).length - 1) 0,
         st.bitwidths.getD (min ((st.speedups.filter (fun q => decide (q ≤ t))).length - 1 + 1)
           (st.speedups.length - 1)) 0,
         pyRound ((w : ℚ) *
           (if isclose
               (st.speedups.getD ((st.speedups.filter (fun q => decide (q ≤ t))).length - 1) 0)
               (st.speedups.getD
                 (min ((st.speedups.filter (fun q => decide (q ≤ t))).length - 1 + 1)
                   (st.speedups.length - 1)) 0) then 0
            else
              st.speedups.getD ((st.speedups.filter (fun q => decide (q ≤ t))).length - 1) 0 *
                (st.speedups.getD
                  (min ((st.speedups.filter (fun q => decide (q ≤ t))).length - 1 + 1)
                    (st.speedups.length - 1)) 0 - t) /
                (t * (st.speedups.getD
                    (min ((st.speedups.filter (fun q => decide (q ≤ t))).length - 1 + 1)
                      (st.speedups.length - 1)) 0 -
                  st.speedups.getD
                    ((st.speedups.filter (fun q => decide (q ≤ t))).length - 1) 0))))) := rfl
    rw [hev]
    by_cases hcl : isclose
        (st.speedups.getD ((st.speedups.filter (fun q => decide (q ≤ t))).length - 1) 0)
        (st.speedups.getD (min ((st.speedups.filter (fun q => decide (q ≤ t))).length - 1 + 1)
          (st.speedups.length - 1)) 0) = true
    · simp only [if_pos hcl, mul_zero, pyRound_zero]
    · simp only [if_neg hcl]

/-- Witness for C3 at the concrete input `init 1 [8, 4, 2, 1] 8`, target
speedup `2`, window length `10`. -/
theorem claim_C3_evaluate_witness :
    ∃ iSlow iFast : ℕ,
      iSlow < exSt.speedups.length ∧
      iFast = min (iSlow + 1) (exSt.speedups.length - 1) ∧
      ((∀ j, j < exSt.speedups.length → ¬ exSt.speedups.getD j 0 ≤ 2) → iSlow = 0) ∧
      (∀ j, j < exSt.speedups.length → exSt.speedups.getD j 0 ≤ 2 →
        exSt.speedups.getD iSlow 0 ≤ 2 ∧ j ≤ iSlow) ∧
      evaluate exSt 2 10 =
        (exSt.bitwidths.getD iSlow 0, exSt.bitwidths.getD iFast 0,
         if isclose (exSt.speedups.getD iSlow 0) (exSt.speedups.getD iFast 0) then 0
         else pyRound (((10 : ℤ) : ℚ) *
           (exSt.speedups.getD iSlow 0 * (exSt.speedups.getD iFast 0 - 2) /
            (2 * (exSt.speedups.getD iFast 0 - exSt.speedups.getD iSlow 0))))) :=
  claim_C3_evaluate (by decide) (by decide) (by decide) (by norm_num) exSt_init

/-- C10: for a controller built from a non-empty duplicate-free positive
bitwidth list, any target speedup in the feedback controller's clamp range
`[1, u_max]`, and any non-negative window length, the returned
`iterations_at_slow` lies in `[0, window_len]`. -/
theorem claim_C10_split_bounds {pc t : ℚ} {l : List ℤ} {s w : ℤ} {st : ABPCState}
    (_hne : l ≠ []) (hnd : l.Nodup) (hpos : ∀ b ∈ l, 0 < b)
    (hinit : init pc l s = .ok st)
    (ht1 : 1 ≤ t) (_ht2 : t ≤ st.uMax) (hw : 0 ≤ w) :
    0 ≤ (evaluate st t w).2.2 ∧ (evaluate st t w).2.2 ≤ w := by
  obtain ⟨hlen0, _h2, _h3, hspstrict, h0, hposq, _h7, _h8⟩ := init_spec hnd hpos hinit
  have hs : st.speedups.Pairwise (· ≤ ·) := hspstrict.imp le_of_lt
  have ht0 : (0 : ℚ) < t := lt_of_lt_of_le one_pos ht1
  have hwq : (0 : ℚ) ≤ ((w : ℤ) : ℚ) := by exact_mod_cast hw
  have hcn : (st.speedups.filter (fun q => decide (q ≤ t))).length ≤
      st.speedups.length := List.length_filter_le _ _
  have hc1 : 0 < (st.speedups.filter (fun q => decide (q ≤ t))).length := by
    refine (sorted_filter_iff hs 0 hlen0).mpr ?_
    rw [h0]; exact ht1
  have hev : (evaluate st t w).2.2 =
      pyRound ((w : ℚ) *
        (if isclose
            (st.speedups.getD ((st.speedups.filter (fun q => decide (q ≤ t))).length - 1) 0)
            (st.speedups.getD
              (min ((st.speedups.filter (fun q => decide (q ≤ t))).length - 1 + 1)
                (st.speedups.length - 1)) 0) then 0
         else
            (st.speedups.getD ((st.speedups.filter (fun q => decide (q ≤ t))).length - 1) 0 *
              (st.speedups.getD
                (min ((st.speedups.filter (fun q => decide (q ≤ t))).length - 1 + 1)
                  (st.speedups.length - 1)) 0 - t)) /
            (t * (st.speedups.getD
                (min ((st.speedups.filter (fun q => decide (q ≤ t))).length - 1 + 1)
                  (st.speedups.length - 1)) 0 -
              st.speedups.getD
                ((st.speedups.filter (fun q => decide (q ≤ t))).length - 1) 0)))) := rfl
  rw [hev]
  by_cases hclt : (st.speedups.filter (fun q => decide (q ≤ t))).length < st.speedups.length
  · have hmin : min ((st.speedups.filter (fun q => decide (q ≤ t))).length - 1 + 1)
        (st.speedups.length - 1) =
        (st.speedups.filter (fun q => decide (q ≤ t))).length := by omega
    rw [hmin]
    have hslow_le : st.speedups.getD
        ((st.speedups.filter (fun q => decide (q ≤ t))).length - 1) 0 ≤ t :=
      (sorted_filter_iff hs _ (by omega)).mp (by omega)
    have hfast_gt : t < st.speedups.getD
        ((st.speedups.filter (fun q => decide (q ≤ t))).length) 0 := by
      by_contra hle
      push_neg at hle
      have := (sorted_filter_iff hs _ hclt).mpr hle
      omega
    have hslow_lt_fast : st.speedups.getD
        ((st.speedups.filter (fun q => decide (q ≤ t))).length - 1) 0 <
        st.speedups.getD ((st.speedups.filter (fun q => decide (q ≤ t))).length) 0 := by
      rw [List.getD_eq_getElem _ _ (by omega : (st.speedups.filter
            (fun q => decide (q ≤ t))).length - 1 < st.speedups.length),
          List.getD_eq_getElem _ _ hclt]
      exact List.pairwise_iff_getElem.mp hspstrict _ _ _ _ (by omega)
    have hslow_pos : 0 < st.speedups.getD
        ((st.speedups.filter (fun q => decide (q ≤ t))).length - 1) 0 := by
      rw [List.getD_eq_getElem _ _ (by omega : (st.speedups.filter
            (fun q => decide (q ≤ t))).length - 1 < st.speedups.length)]
      exact hposq _ (List.getElem_mem _)
    split
    · rw [mul_zero, pyRound_zero]
      exact ⟨le_rfl, hw⟩
    · have hx0 : 0 ≤ (st.speedups.getD
          ((st.speedups.filter (fun q => decide (q ≤ t))).length - 1) 0 *
            (st.speedups.getD ((st.speedups.filter (fun q => decide (q ≤ t))).length) 0 - t)) /
          (t * (st.speedups.getD ((st.speedups.filter (fun q => decide (q ≤ t))).length) 0 -
            st.speedups.getD ((st.speedups.filter (fun q => decide (q ≤ t))).length - 1) 0)) := by
        apply div_nonneg
        · apply mul_nonneg hslow_pos.le
          linarith
        · apply le_of_lt
          apply mul_pos ht0
          linarith
      have hx1 : (st.speedups.getD
          ((st.speedups.filter (fun q => decide (q ≤ t))).length - 1) 0 *
            (st.speedups.getD ((st.speedups.filter (fun q => decide (q ≤ t))).length) 0 - t)) /
          (t * (st.speedups.getD ((st.speedups.filter (fun q => decide (q ≤ t))).length) 0 -
            st.speedups.getD ((st.speedups.filter (fun q => decide (q ≤ t))).length - 1) 0)) ≤
          1 := by
        rw [div_le_one (by apply mul_pos ht0; linarith)]
        nlinarith [mul_le_mul_of_nonneg_right hslow_le
          (le_of_lt (lt_trans ht0 hfast_gt))]
      refine pyRound_bounds (mul_nonneg hwq hx0) ?_
      exact mul_le_of_le_one_right hwq hx1
  · have hceq : (st.speedups.filter (fun q => decide (q ≤ t))).length =
        st.speedups.length := by omega
    have hmin : min ((st.speedups.filter (fun q => decide (q ≤ t))).length - 1 + 1)
        (st.speedups.length - 1) =
        (st.speedups.filter (fun q => decide (q ≤ t))).length - 1 := by omega
    rw [hmin, if_pos (isclose_self _), mul_zero, pyRound_zero]
    exact ⟨le_rfl, hw⟩

/-- Witness for C10 at the concrete input `init 1 [8, 4, 2, 1] 8`, target
speedup `2 ∈ [1, u_max]`, window length `10`. -/
theorem claim_C10_split_bounds_witness :
    0 ≤ (evaluate exSt 2 10).2.2 ∧ (evaluate exSt 2 10).2.2 ≤ 10 :=
  claim_C10_split_bounds (by decide) (by decide) (by decide) exSt_init
    (by norm_num) (by decide) (by norm_num)


end Quant

namespace Monitoring

lemma lookup_updAssoc_self {α β : Type} [BEq α] [LawfulBEq α]
    (m : List (α × β)) (k : α) (v : β) :
    (updAssoc m k v).lookup k = some v := by
  induction m with
  | nil => simp [updAssoc, List.lookup]
  | cons p m ih =>
    obtain ⟨a, b⟩ := p
    unfold updAssoc
    by_cases h : (a == k) = true
    · rw [if_pos h]
      simp [List.lookup]
    · rw [if_neg h]
      simp only [List.lookup]
      have ha : a ≠ k := by
        intro he
        exact h (by rw [he]; exact beq_self_eq_true k)
      have hk : (k == a) = false := beq_eq_false_iff_ne.mpr (Ne.symm ha)
      rw [hk]
      exact ih

/-- Unfolding equation for `iteration_start` on an initialized registry. -/
lemma iteration_start_eq (ctx : MonitorCtx) (tcx : List (ℕ × List Key))
    (lks : List Key) (wts ats : List (Key × String)) (ident : ℕ) (key : Key) :
    iteration_start ⟨some ctx, tcx, lks, wts, ats⟩ ident key =
      (if lks.contains key = true then
        match iterCtxPush tcx ident key with
        | .error e => .error e
        | .ok tc => .ok ⟨some ctx, tc, lks, wts, ats⟩
      else .error ("KeyError: " ++ key)) := rfl

/-- C4: on an initialized registry, after a successful `iteration_start` for
`(ident, key)`, a second `iteration_start` for the same `(ident, key)`
without an intervening completion fails with the collision `KeyError`; the
error is raised before any state is produced, so the open span is not
silently overwritten. -/
theorem claim_C4_reentrant_start {g g1 : GState} {ident : ℕ} {key : Key}
    (hinit : g.monitorCtx.isSome = true)
    (h1 : iteration_start g ident key = .ok g1) :
    iteration_start g1 ident key =
      .error ("Thread iteration context already exists for key: " ++ key) := by
  obtain ⟨mc, tcx, lks, wts, ats⟩ := g
  cases mc with
  | none =>
      replace hinit : (none : Option MonitorCtx).isSome = true := hinit
      simp at hinit
  | some ctx =>
      rw [iteration_start_eq] at h1
      by_cases hlk : lks.contains key = true
      · rw [if_pos hlk] at h1
        by_cases hkm : ((tcx.lookup ident).getD []).contains key = true
        · rw [iterCtxPush, if_pos hkm] at h1
          replace h1 :
              (Except.error ("Thread iteration context already exists for key: " ++ key) :
                Except String GState) = .ok g1 := h1
          cases h1
        · rw [iterCtxPush, if_neg hkm] at h1
          replace h1 :
              (Except.ok (⟨some ctx,
                  updAssoc tcx ident (((tcx.lookup ident).getD []) ++ [key]),
                  lks, wts, ats⟩ : GState) : Except String GState) = .ok g1 := h1
          cases h1
          rw [iteration_start_eq, if_pos hlk, iterCtxPush, lookup_updAssoc_self,
            Option.getD_some, if_pos (by simp)]
      · rw [if_neg hlk] at h1
        replace h1 :
            (Except.error ("KeyError: " ++ key) : Except String GState) = .ok g1 := h1
        cases h1

/-- Witness for C4 on the concrete registry `exG0`, thread 0, key `shard`. -/
theorem claim_C4_reentrant_start_witness :
    iteration_start exG1 0 "shard" =
      .error ("Thread iteration context already exists for key: " ++ "shard") :=
  @claim_C4_reentrant_start exG0 exG1 0 "shard" (by rfl) (by rfl)

/-- C5: `init` attaches an energy probe when the probe library is found and
the first `open()` succeeds; when the library is missing it continues with
energy metrics disabled; when the first `open()` fails it recreates the
context without an energy probe and retries `open()` exactly once; when the
retried `open()` also fails the error propagates to the caller. -/
theorem claim_C5_init_probe_fallback (g : GState) (env : InitEnv) (ws : ℕ)
    (key : Key) (wt acc_t : String) :
    (env.openErr1 = none →
      init g env ws key wt acc_t =
        .ok { g with
                monitorCtx := some ⟨ws, !env.energyLibMissing, [(key, MetricState.fresh)]⟩
                locks := if g.locks.contains key then g.locks else g.locks ++ [key]
                workTypes := updAssoc g.workTypes key wt
                accTypes := updAssoc g.accTypes key acc_t }) ∧
    (∀ e, env.openErr1 = some e → env.openErr2 = none →
      init g env ws key wt acc_t =
        .ok { g with
                monitorCtx := some ⟨ws, false, [(key, MetricState.fresh)]⟩
                locks := if g.locks.contains key then g.locks else g.locks ++ [key]
                workTypes := updAssoc g.workTypes key wt
                accTypes := updAssoc g.accTypes key acc_t }) ∧
    (∀ e e2, env.openErr1 = some e → env.openErr2 = some e2 →
      init g env ws key wt acc_t = .error e2) := by
  refine ⟨?_, ?_, ?_⟩
  · intro h1
    unfold init
    rw [h1]
  · intro e h1 h2
    unfold init
    rw [h1, h2]
  · intro e e2 h1 h2
    unfold init
    rw [h1, h2]

/-- Witness for C5: probe library present, both `open()` calls fail (errnos
13 and 61) — the second error propagates. -/
theorem claim_C5_init_probe_fallback_witness :
    init exGNone ⟨false, some 13, some 61⟩ 10 "shard" "items" "acc" = .error 61 :=
  (claim_C5_init_probe_fallback exGNone ⟨false, some 13, some 61⟩ 10
    "shard" "items" "acc").2.2 13 61 rfl rfl

/-- Unfolding equation for `iteration` on an initialized registry. -/
lemma iteration_eq (ctx : MonitorCtx) (tcx : List (ℕ × List Key))
    (lks : List Key) (wts ats : List (Key × String)) (ident : ℕ) (key : Key)
    (work acc : ℚ) (safe : Bool) :
    iteration ⟨some ctx, tcx, lks, wts, ats⟩ ident key work acc safe =
      (if lks.contains key = true then
        match iterCtxPop tcx ident key with
        | .ok tc => iterationApply ⟨some ctx, tcx, lks, wts, ats⟩ ctx tc key work acc
        | .error _ =>
            if safe = true then
              .error ("No thread iteration context for key: " ++ key)
            else iterationApply ⟨some ctx, tcx, lks, wts, ats⟩ ctx tcx key work acc
      else .error ("KeyError: " ++ key)) := rfl

/-- C6: on an initialized registry with `key` registered and no open span for
`(ident, key)`, completing an iteration with `safe=True` raises the usage
`KeyError` while `safe=False` proceeds without a timed span and still applies
the heartbeat update: the tag advances and the instant, window and global
accumulators are updated. -/
theorem claim_C6_complete_without_span {g : GState} {ctx : MonitorCtx}
    {ms : MetricState} {ident : ℕ} {key : Key} {work acc : ℚ}
    (hctx : g.monitorCtx = some ctx)
    (hlk : g.locks.contains key = true)
    (hms : ctx.metrics.lookup key = some ms)
    (hspan : ((g.thrCtx.lookup ident).getD []).contains key = false) :
    iteration g ident key work acc true =
      .error ("No thread iteration context for key: " ++ key) ∧
    ∃ logs,
      iteration g ident key work acc false =
        .ok ({ g with
                 monitorCtx := some ({ ctx with
                   metrics := updAssoc ctx.metrics key
                     (ms.heartbeat work acc ctx.windowSize) }) }, logs) ∧
      (ms.heartbeat work acc ctx.windowSize).calls = ms.calls + 1 ∧
      (ms.heartbeat work acc ctx.windowSize).instantWork = work ∧
      (ms.heartbeat work acc ctx.windowSize).instantAcc = acc ∧
      (ms.heartbeat work acc ctx.windowSize).globalWork = ms.globalWork + work ∧
      (ms.heartbeat work acc ctx.windowSize).globalAcc = ms.globalAcc + acc ∧
      (ms.heartbeat work acc ctx.windowSize).globalBeats = ms.globalBeats + 1 ∧
      (ms.heartbeat work acc ctx.windowSize).windowWork =
        (if (ms.calls + 1) % ctx.windowSize = 0 then 0 else ms.windowWork + work) := by
  obtain ⟨mc, tcx, lks, wts, ats⟩ := g
  replace hctx : mc = some ctx := hctx
  subst hctx
  replace hlk : lks.contains key = true := hlk
  replace hspan : ((tcx.lookup ident).getD []).contains key = false := hspan
  have hpop : ∃ e, iterCtxPop tcx ident key = .error e := by
    cases hl : tcx.lookup ident with
    | none =>
        refine ⟨"KeyError: thread ident", ?_⟩
        unfold iterCtxPop
        rw [hl]
    | some km =>
        have hkm : km.contains key = false := by
          rw [hl] at hspan
          simpa using hspan
        refine ⟨"KeyError: " ++ key, ?_⟩
        unfold iterCtxPop
        rw [hl]
        exact if_neg (by simpa using hkm)
  obtain ⟨e, hpop⟩ := hpop
  constructor
  · rw [iteration_eq, if_pos hlk, hpop]
    rfl
  · refine ⟨iterationLogs
      (MonitorCtx.getTag
        ({ ctx with
             metrics := updAssoc ctx.metrics key
               (ms.heartbeat work acc ctx.windowSize) })
        key) key,
      ?_, rfl, rfl, rfl, rfl, rfl, rfl, ?_⟩
    · rw [iteration_eq, if_pos hlk, hpop]
      show iterationApply ⟨some ctx, tcx, lks, wts, ats⟩ ctx tcx key work acc = _
      unfold iterationApply MonitorCtx.iteration
      rw [hms]
    · show (if decide ((ms.calls + 1) % ctx.windowSize = 0) = true then (0 : ℚ)
            else ms.windowWork + work) = _
      by_cases hroll : (ms.calls + 1) % ctx.windowSize = 0
      · rw [if_pos (by simpa using hroll), if_pos hroll]
      · rw [if_neg (by simpa using hroll), if_neg hroll]

/-- Witness for C6 on the concrete registry `exG0` (no open span), thread 0,
key `shard`, work 1, accuracy 0. -/
theorem claim_C6_complete_without_span_witness :
    iteration exG0 0 "shard" 1 0 true =
      .error ("No thread iteration context for key: " ++ "shard") :=
  (@claim_C6_complete_without_span exG0
    ({ windowSize := 10, hasEnergy := false
       metrics := [("shard", MetricState.fresh)] })
    MetricState.fresh 0 "shard" 1 0
    rfl rfl rfl rfl).1

/-- C7: when the registry was never initialized, `add_key`,
`iteration_start`, `iteration` and `finish` all return without raising and
leave the contexts, locks and label maps unchanged. -/
theorem claim_C7_uninitialized_noop (g : GState) (hnone : g.monitorCtx = none)
    (ident : ℕ) (key : Key) (workType accType : String) (work acc : ℚ)
    (safe : Bool) :
    add_key g key workType accType = g ∧
    iteration_start g ident key = .ok g ∧
    iteration g ident key work acc safe = .ok (g, []) ∧
    finish g = (g, []) := by
  obtain ⟨mc, tcx, lks, wts, ats⟩ := g
  replace hnone : mc = none := hnone
  subst hnone
  exact ⟨rfl, rfl, rfl, rfl⟩

/-- Witness for C7 on the never-initialized state. -/
theorem claim_C7_uninitialized_noop_witness :
    add_key exGNone "shard" "items" "acc" = exGNone ∧
    iteration_start exGNone 0 "shard" = .ok exGNone ∧
    iteration exGNone 0 "shard" 1 0 true = .ok (exGNone, []) ∧
    finish exGNone = (exGNone, []) :=
  claim_C7_uninitialized_noop exGNone rfl 0 "shard" "items" "acc" 1 0 true

/-- C1 (code-bug exhibit): with the window size configured to 4 (as the
`WINDOW_SIZE=4` environment override would), completing the 4th iteration of
a key (tag 3) logs only instant fields although `(3+1) % 4 = 0` — the claim
(and the spec) say window fields are logged then — while completing the 10th
iteration (tag 9) does log window fields although `(9+1) % 4 ≠ 0`:
`_iteration` tests `(tag+1) % _WINDOW_SIZE` with the module constant 10
instead of the configured window size. -/
theorem claim_C1_window_log_constant :
    get_window_size (some 4) = 4 ∧
    ((iteration c1G4 0 "shard" 1 0 true).map (fun r => r.2) =
        .ok [LogEvent.instant "shard"] ∧
      (iteration c1G4 0 "shard" 1 0 true).map
          (fun r => r.1.monitorCtx.map (fun c => c.getTag "shard")) =
        .ok (some 3) ∧
      (3 + 1) % 4 = 0) ∧
    ((iteration c1G9 0 "shard" 1 0 true).map (fun r => r.2) =
        .ok [LogEvent.instant "shard", LogEvent.window "shard"] ∧
      (iteration c1G9 0 "shard" 1 0 true).map
          (fun r => r.1.monitorCtx.map (fun c => c.getTag "shard")) =
        .ok (some 9) ∧
      (9 + 1) % 4 ≠ 0) :=
  ⟨rfl, ⟨rfl, rfl, rfl⟩, ⟨rfl, rfl, by norm_num⟩⟩

end Monitoring

namespace Runtime

/-- C9: `handle_cmd` leaves the coordinator state (cancellation flag and
schedule queue) unchanged and raises no error for every command kind other
than `Stop` and `ScheduleBroadcast`; a `Stop` command sets the cancellation
flag (touching nothing else), and a `ScheduleBroadcast` command enqueues the
decoded payload into the delivery queue. -/
theorem claim_C9_handle_cmd (st : CoordState) (cmd : ℤ) (tensors : List Tensor) :
    (cmd ≠ CMD_STOP → cmd ≠ CMD_SCHED → handle_cmd st cmd tensors = st) ∧
    handle_cmd st CMD_STOP tensors = { st with stopEvent := true } ∧
    handle_cmd st CMD_SCHED tensors =
      { st with schedQ := st.schedQ ++ [tensors.map Tensor.tolist] } := by
  refine ⟨?_, ?_, ?_⟩
  · intro h0 h1
    unfold handle_cmd
    rw [if_neg h0, if_neg h1]
  · unfold handle_cmd
    rw [if_pos rfl]
  · unfold handle_cmd
    rw [if_neg (by norm_num [CMD_STOP, CMD_SCHED]), if_pos rfl]

/-- Witness for C9 with the unknown command kind 2 on an idle coordinator. -/
theorem claim_C9_handle_cmd_witness :
    handle_cmd ⟨false, []⟩ 2 [] = ⟨false, []⟩ ∧
    handle_cmd ⟨false, []⟩ CMD_STOP [] = ⟨true, []⟩ :=
  ⟨(claim_C9_handle_cmd ⟨false, []⟩ 2 []).1 (by norm_num [CMD_STOP])
      (by norm_num [CMD_SCHED]),
   (claim_C9_handle_cmd ⟨false, []⟩ CMD_STOP []).2.1⟩

end Runtime

end PipeEdge
